import Mathlib

/-!
Shallow embedding of the qpay-go client library (package `qpay`), covering
the token lifecycle (`ensureToken`, `storeToken`, `GetToken`, `RefreshToken`),
the transport layer (`doRequest`, `doBasicAuthRequest`, `doRefreshTokenHTTP`),
error classification (`Error`, `IsQPayError`), configuration loading
(`LoadConfigFromEnv`), and the lock discipline of the token state.

HTTP exchanges and JSON (un)marshalling are external effects; they are
modelled by an explicit environment (`Env`) supplying, for each request, the
outcome of `http.Do`, and for each body, the outcome of `json.Unmarshal`.
Time is passed explicitly as the epoch-second clock value (`time.Now().Unix()`).
-/

namespace QPay

/-- `tokenBufferSeconds` constant from client.go. -/
def tokenBufferSeconds : Int := 30

/-- `Config` struct from config.go. -/
structure Config where
  baseURL : String
  username : String
  password : String
  invoiceCode : String
  callbackURL : String
deriving DecidableEq

/-- `TokenResponse` struct from the models file (JSON field names in the
source: `token_type`, `refresh_expires_in`, `refresh_token`, `access_token`,
`expires_in`, `scope`, `session_state`). -/
structure TokenResponse where
  tokenType : String
  refreshExpiresIn : Int
  refreshToken : String
  accessToken : String
  expiresIn : Int
  scope : String
  sessionState : String
deriving DecidableEq

/-- The four mutable token fields of `Client` (client.go lines 22-25). -/
structure ClientState where
  accessToken : String
  refreshToken : String
  expiresAt : Int
  refreshExpiresAt : Int
deriving DecidableEq

/-- `Error` struct from errors.go: `StatusCode`, `Code` (JSON `error`),
`Message` (JSON `message`), `RawBody`. -/
structure Error where
  statusCode : Nat
  code : String
  message : String
  rawBody : String
deriving DecidableEq

/-- A Go `error` value as the client produces it: either a `*qpay.Error`
(`qpay`), an error built by `fmt.Errorf("<text>: %w", inner)` (`wrapped`,
whose dynamic type is not `*qpay.Error`), or any other error value such as a
network or JSON error (`other`). -/
inductive GoError where
  | qpay (e : Error)
  | wrapped (text : String) (inner : GoError)
  | other (msg : String)
deriving DecidableEq

/-- An HTTP request as the client builds it: method, full URL
(`baseURL + path`), explicitly set headers in order, optional basic-auth
credentials (`req.SetBasicAuth`), optional JSON body text. -/
structure HTTPRequest where
  method : String
  url : String
  headers : List (String × String)
  basicAuth : Option (String × String)
  body : Option String
deriving DecidableEq

/-- Outcome of one `c.http.Do` exchange: a transport error (`http.Do`
returned an error), a body-read error (`io.ReadAll` failed), or a response
with a status code and a fully read body. -/
inductive HTTPOutcome where
  | transportError (e : GoError)
  | readError (e : GoError)
  | response (status : Nat) (body : String)
deriving DecidableEq

/-- Outcome of `json.Unmarshal(body, qErr)` into an `*Error`: `invalid`
when the body is not valid JSON (fields left untouched), otherwise the
optional `error` and `message` fields found in the JSON object (an absent
field leaves the corresponding struct field untouched). -/
inductive ErrBodyDecode where
  | invalid
  | fields (code : Option String) (message : Option String)
deriving DecidableEq

/-- The external world: the HTTP executor and the JSON decoder.
`unmarshalToken` is `json.Unmarshal` into a `TokenResponse` (error value on
failure); `unmarshalResult` is `json.Unmarshal` into a domain operation's
result destination (`some e` on failure with underlying error `e`). -/
structure Env where
  httpDo : HTTPRequest → HTTPOutcome
  unmarshalError : String → ErrBodyDecode
  unmarshalToken : String → Except GoError TokenResponse
  unmarshalResult : String → Option GoError

/-- `http.StatusText` from the Go standard library (net/http): the textual
reason for a status code, `""` for unknown codes. -/
def statusText : Nat → String
  | 100 => "Continue"
  | 101 => "Switching Protocols"
  | 102 => "Processing"
  | 103 => "Early Hints"
  | 200 => "OK"
  | 201 => "Created"
  | 202 => "Accepted"
  | 203 => "Non-Authoritative Information"
  | 204 => "No Content"
  | 205 => "Reset Content"
  | 206 => "Partial Content"
  | 207 => "Multi-Status"
  | 208 => "Already Reported"
  | 226 => "IM Used"
  | 300 => "Multiple Choices"
  | 301 => "Moved Permanently"
  | 302 => "Found"
  | 303 => "See Other"
  | 304 => "Not Modified"
  | 305 => "Use Proxy"
  | 307 => "Temporary Redirect"
  | 308 => "Permanent Redirect"
  | 400 => "Bad Request"
  | 401 => "Unauthorized"
  | 402 => "Payment Required"
  | 403 => "Forbidden"
  | 404 => "Not Found"
  | 405 => "Method Not Allowed"
  | 406 => "Not Acceptable"
  | 407 => "Proxy Authentication Required"
  | 408 => "Request Timeout"
  | 409 => "Conflict"
  | 410 => "Gone"
  | 411 => "Length Required"
  | 412 => "Precondition Failed"
  | 413 => "Request Entity Too Large"
  | 414 => "Request URI Too Long"
  | 415 => "Unsupported Media Type"
  | 416 => "Requested Range Not Satisfiable"
  | 417 => "Expectation Failed"
  | 418 => "I'm a teapot"
  | 421 => "Misdirected Request"
  | 422 => "Unprocessable Entity"
  | 423 => "Locked"
  | 424 => "Failed Dependency"
  | 425 => "Too Early"
  | 426 => "Upgrade Required"
  | 428 => "Precondition Required"
  | 429 => "Too Many Requests"
  | 431 => "Request Header Fields Too Large"
  | 451 => "Unavailable For Legal Reasons"
  | 500 => "Internal Server Error"
  | 501 => "Not Implemented"
  | 502 => "Bad Gateway"
  | 503 => "Service Unavailable"
  | 504 => "Gateway Timeout"
  | 505 => "HTTP Version Not Supported"
  | 506 => "Variant Also Negotiates"
  | 507 => "Insufficient Storage"
  | 508 => "Loop Detected"
  | 510 => "Not Extended"
  | 511 => "Network Authentication Required"
  | _ => ""

/-- Effect of `json.Unmarshal(respBody, qErr)` on an `*Error` value. -/
def applyUnmarshalError (d : ErrBodyDecode) (e : Error) : Error :=
  match d with
  | .invalid => e
  | .fields c m => { e with code := c.getD e.code, message := m.getD e.message }

/-- The non-2xx classification block shared verbatim by `doRequest`
(client.go lines 163-176) and `doBasicAuthRequest` (lines 207-220): build
`&Error{StatusCode, RawBody}`, best-effort `json.Unmarshal` into it, then
default `Code` to `http.StatusText(status)` and `Message` to the raw body
when still empty. -/
def classifyDefaulted (env : Env) (status : Nat) (respBody : String) : Error :=
  let qErr : Error := { statusCode := status, code := "", message := "", rawBody := respBody }
  let qErr := applyUnmarshalError (env.unmarshalError respBody) qErr
  let qErr := if qErr.code = "" then { qErr with code := statusText status } else qErr
  if qErr.message = "" then { qErr with message := respBody } else qErr

/-- The request built by `doBasicAuthRequest`: `baseURL + path`, basic-auth
credentials from the config, no body, no explicitly set headers. -/
def basicAuthRequest (cfg : Config) (method path : String) : HTTPRequest :=
  { method := method, url := cfg.baseURL ++ path, headers := [],
    basicAuth := some (cfg.username, cfg.password), body := none }

/-- The request built by `doRefreshTokenHTTP`: `POST baseURL + "/v2/auth/refresh"`
with header `Authorization: Bearer <refreshTok>` and no body. -/
def refreshRequest (cfg : Config) (refreshTok : String) : HTTPRequest :=
  { method := "POST", url := cfg.baseURL ++ "/v2/auth/refresh",
    headers := [("Authorization", "Bearer " ++ refreshTok)],
    basicAuth := none, body := none }

/-- The request built by `doRequest` for domain operations: the given method
and `baseURL + path`, headers `Content-Type: application/json` and
`Authorization: Bearer <accessToken>`, and the JSON-encoded body when present. -/
def bearerRequest (cfg : Config) (method path : String) (body : Option String)
    (accessToken : String) : HTTPRequest :=
  { method := method, url := cfg.baseURL ++ path,
    headers := [("Content-Type", "application/json"),
                ("Authorization", "Bearer " ++ accessToken)],
    basicAuth := none, body := body }

/-- `doRefreshTokenHTTP` (client.go lines 86-120). Transport and read errors
are returned as-is; a non-2xx response is turned into a `*Error` holding the
status and the raw body with a best-effort `json.Unmarshal` and NO defaulting
of `Code`/`Message`; a 2xx body is unconditionally unmarshalled into a
`TokenResponse`. -/
def doRefreshTokenHTTP (env : Env) (cfg : Config) (refreshTok : String) :
    Except GoError TokenResponse :=
  match env.httpDo (refreshRequest cfg refreshTok) with
  | .transportError e => .error e
  | .readError e => .error e
  | .response status respBody =>
    if status < 200 ∨ 300 ≤ status then
      .error (.qpay (applyUnmarshalError (env.unmarshalError respBody)
        { statusCode := status, code := "", message := "", rawBody := respBody }))
    else
      match env.unmarshalToken respBody with
      | .ok token => .ok token
      | .error e => .error e

/-- The zero value of `TokenResponse` (the decode destination before any
field is written). -/
def TokenResponse.zero : TokenResponse :=
  { tokenType := "", refreshExpiresIn := 0, refreshToken := "", accessToken := "",
    expiresIn := 0, scope := "", sessionState := "" }

/-- `doBasicAuthRequest` (client.go lines 185-232), specialised to its one
call site, which decodes into a `TokenResponse`. Transport, read and
success-decode failures are wrapped by `fmt.Errorf`; a non-2xx response is
classified with defaulting; an empty 2xx body leaves the destination at its
zero value. -/
def doBasicAuthRequest (env : Env) (cfg : Config) (method path : String) :
    Except GoError TokenResponse :=
  match env.httpDo (basicAuthRequest cfg method path) with
  | .transportError e => .error (.wrapped "request failed" e)
  | .readError e => .error (.wrapped "failed to read response body" e)
  | .response status respBody =>
    if status < 200 ∨ 300 ≤ status then
      .error (.qpay (classifyDefaulted env status respBody))
    else
      if respBody.length > 0 then
        match env.unmarshalToken respBody with
        | .ok token => .ok token
        | .error e => .error (.wrapped "failed to unmarshal response" e)
      else .ok TokenResponse.zero

/-- `getTokenRequest` (token file): `doBasicAuthRequest(ctx, "POST",
"/v2/auth/token", &token)`. -/
def getTokenRequest (env : Env) (cfg : Config) : Except GoError TokenResponse :=
  doBasicAuthRequest env cfg "POST" "/v2/auth/token"

/-- The full-authentication request issued by `getTokenRequest`. -/
def authTokenRequest (cfg : Config) : HTTPRequest :=
  basicAuthRequest cfg "POST" "/v2/auth/token"

/-- `storeToken` (client.go lines 122-127): overwrites all four token fields
of the client from the decoded `TokenResponse`; `expiresAt` and
`refreshExpiresAt` receive `ExpiresIn` / `RefreshExpiresIn` unmodified. -/
def storeToken (token : TokenResponse) : ClientState :=
  { accessToken := token.accessToken, refreshToken := token.refreshToken,
    expiresAt := token.expiresIn, refreshExpiresAt := token.refreshExpiresIn }

/-- The access-token freshness check of `ensureToken` (client.go line 51):
`c.accessToken != "" && now < c.expiresAt - tokenBufferSeconds`. -/
def accessTokenFresh (s : ClientState) (now : Int) : Bool :=
  s.accessToken != "" && decide (now < s.expiresAt - tokenBufferSeconds)

/-- The refresh-strategy check of `ensureToken` (client.go line 57):
`c.refreshToken != "" && now < c.refreshExpiresAt - tokenBufferSeconds`. -/
def canRefreshCheck (s : ClientState) (now : Int) : Bool :=
  s.refreshToken != "" && decide (now < s.refreshExpiresAt - tokenBufferSeconds)

/-- Result of one `ensureToken` call: the returned error (if any), the token
state after the call, and the HTTP requests issued, in order. -/
structure EnsureResult where
  err : Option GoError
  state : ClientState
  calls : List HTTPRequest
deriving DecidableEq

/-- `ensureToken` (client.go lines 46-83). Cache hit returns immediately
with no network call. Otherwise, when the refresh token passes its check,
one refresh call is attempted; on its success the new pair is stored; on its
failure the error is dropped and execution falls through to full
authentication, whose failure is wrapped as
`fmt.Errorf("failed to get token: %w", err)`. -/
def ensureToken (env : Env) (cfg : Config) (now : Int) (s : ClientState) : EnsureResult :=
  if accessTokenFresh s now then
    { err := none, state := s, calls := [] }
  else
    let refreshTok := s.refreshToken
    if canRefreshCheck s now then
      match doRefreshTokenHTTP env cfg refreshTok with
      | .ok token =>
        { err := none, state := storeToken token,
          calls := [refreshRequest cfg refreshTok] }
      | .error _ =>
        match getTokenRequest env cfg with
        | .ok token =>
          { err := none, state := storeToken token,
            calls := [refreshRequest cfg refreshTok, authTokenRequest cfg] }
        | .error e =>
          { err := some (.wrapped "failed to get token" e), state := s,
            calls := [refreshRequest cfg refreshTok, authTokenRequest cfg] }
    else
      match getTokenRequest env cfg with
      | .ok token =>
        { err := none, state := storeToken token, calls := [authTokenRequest cfg] }
      | .error e =>
        { err := some (.wrapped "failed to get token" e), state := s,
          calls := [authTokenRequest cfg] }

/-- A sequence of `ensureToken` calls at the given clock values, threading
the token state; returns the final state and all HTTP requests issued. -/
def ensureTokenSeq (env : Env) (cfg : Config) (times : List Int) (s : ClientState) :
    ClientState × List HTTPRequest :=
  match times with
  | [] => (s, [])
  | t :: ts =>
    let r := ensureToken env cfg t s
    let rest := ensureTokenSeq env cfg ts r.state
    (rest.1, r.calls ++ rest.2)

/-- `GetToken` (token file): one unconditional full-auth call; stores the
pair on success, leaves the state untouched and propagates the error on
failure. -/
def GetToken (env : Env) (cfg : Config) (s : ClientState) :
    Except GoError TokenResponse × ClientState :=
  match getTokenRequest env cfg with
  | .error e => (.error e, s)
  | .ok token => (.ok token, storeToken token)

/-- `RefreshToken` (token file): reads the current refresh token, one
unconditional refresh call; stores the pair on success, leaves the state
untouched and propagates the error on failure. -/
def RefreshToken (env : Env) (cfg : Config) (s : ClientState) :
    Except GoError TokenResponse × ClientState :=
  match doRefreshTokenHTTP env cfg s.refreshToken with
  | .error e => (.error e, s)
  | .ok token => (.ok token, storeToken token)

/-- `doRequest` (client.go lines 129-183), with the request body already
JSON-encoded (domain operations always pass a non-nil result destination).
Returns the Go error (if any) and the token state after the call. An
`ensureToken` failure is returned as-is; transport, read and success-decode
failures are wrapped by `fmt.Errorf`; a non-2xx response returns the
classified `*Error` value directly. -/
def doRequest (env : Env) (cfg : Config) (now : Int) (s : ClientState)
    (method path : String) (body : Option String) : Option GoError × ClientState :=
  let r := ensureToken env cfg now s
  match r.err with
  | some e => (some e, r.state)
  | none =>
    match env.httpDo (bearerRequest cfg method path body r.state.accessToken) with
    | .transportError e => (some (.wrapped "request failed" e), r.state)
    | .readError e => (some (.wrapped "failed to read response body" e), r.state)
    | .response status respBody =>
      if status < 200 ∨ 300 ≤ status then
        (some (.qpay (classifyDefaulted env status respBody)), r.state)
      else
        if respBody.length > 0 then
          match env.unmarshalResult respBody with
          | some e => (some (.wrapped "failed to unmarshal response" e), r.state)
          | none => (none, r.state)
        else (none, r.state)

/-- `IsQPayError` (errors.go lines 19-27): nil check, then a direct type
assertion `err.(*Error)` — no unwrapping. -/
def IsQPayError : Option GoError → Option Error × Bool
  | none => (none, false)
  | some (.qpay e) => (some e, true)
  | some (.wrapped _ _) => (none, false)
  | some (.other _) => (none, false)

/-- The five mandatory environment variable names of `LoadConfigFromEnv`. -/
def requiredEnvNames : List String :=
  ["QPAY_BASE_URL", "QPAY_USERNAME", "QPAY_PASSWORD",
   "QPAY_INVOICE_CODE", "QPAY_CALLBACK_URL"]

/-- The `required` name-to-value table of `LoadConfigFromEnv` (config.go
lines 35-41), as the list of its entries. -/
def requiredPairs (getenv : String → String) : List (String × String) :=
  [("QPAY_BASE_URL", getenv "QPAY_BASE_URL"), ("QPAY_USERNAME", getenv "QPAY_USERNAME"),
   ("QPAY_PASSWORD", getenv "QPAY_PASSWORD"), ("QPAY_INVOICE_CODE", getenv "QPAY_INVOICE_CODE"),
   ("QPAY_CALLBACK_URL", getenv "QPAY_CALLBACK_URL")]

/-- `LoadConfigFromEnv` (config.go lines 25-49), with `os.Getenv` passed as
a function (it returns `""` for an unset variable). The Go source iterates a
map literal whose iteration order is unspecified; the model checks the
entries in the order they appear in the map literal, which only fixes WHICH
missing variable is named when several are missing. -/
def LoadConfigFromEnv (getenv : String → String) : Except String Config :=
  match (requiredPairs getenv).find? (fun p => p.2 == "") with
  | some p => .error ("required environment variable " ++ p.1 ++ " is not set")
  | none =>
    .ok { baseURL := getenv "QPAY_BASE_URL", username := getenv "QPAY_USERNAME",
          password := getenv "QPAY_PASSWORD", invoiceCode := getenv "QPAY_INVOICE_CODE",
          callbackURL := getenv "QPAY_CALLBACK_URL" }

/-! ### Lock discipline of the token state

A static model of the locking structure: each code path of the operations
touching the four token fields is transcribed as the sequence of its mutex
operations, token-field accesses, and network calls, in source order. -/

/-- The four token fields of `Client` as abstract names. -/
inductive TokenField where
  | accessTokenField
  | refreshTokenField
  | expiresAtField
  | refreshExpiresAtField
deriving DecidableEq

/-- One primitive step of a code path: take or release `c.mu`, read or
write one of the four token fields, or perform a network round trip. -/
inductive MutexAction where
  | lock
  | unlock
  | readField (f : TokenField)
  | writeField (f : TokenField)
  | netCall
deriving DecidableEq

/-- The field accesses of a path that happen while the lock is NOT held,
tracking the lock depth along the path. -/
def unlockedAccesses : Nat → List MutexAction → List MutexAction
  | _, [] => []
  | d, MutexAction.lock :: rest => unlockedAccesses (d + 1) rest
  | d, MutexAction.unlock :: rest => unlockedAccesses (d - 1) rest
  | d, MutexAction.readField f :: rest =>
    if d = 0 then MutexAction.readField f :: unlockedAccesses d rest
    else unlockedAccesses d rest
  | d, MutexAction.writeField f :: rest =>
    if d = 0 then MutexAction.writeField f :: unlockedAccesses d rest
    else unlockedAccesses d rest
  | d, MutexAction.netCall :: rest => unlockedAccesses d rest

/-- The number of network calls of a path performed while the lock IS held. -/
def netCallsUnderLock : Nat → List MutexAction → Nat
  | _, [] => 0
  | d, MutexAction.lock :: rest => netCallsUnderLock (d + 1) rest
  | d, MutexAction.unlock :: rest => netCallsUnderLock (d - 1) rest
  | d, MutexAction.readField _ :: rest => netCallsUnderLock d rest
  | d, MutexAction.writeField _ :: rest => netCallsUnderLock d rest
  | d, MutexAction.netCall :: rest =>
    (if d = 0 then 0 else 1) + netCallsUnderLock d rest

/-- The four field writes of `storeToken` (client.go lines 122-127). -/
def storeTokenWrites : List MutexAction :=
  [.writeField .accessTokenField, .writeField .refreshTokenField,
   .writeField .expiresAtField, .writeField .refreshExpiresAtField]

/-- `ensureToken` cache-hit path (client.go lines 47-54): lock, read the
access token and its expiry, unlock, return. -/
def ensureTokenHitTrace : List MutexAction :=
  [.lock, .readField .accessTokenField, .readField .expiresAtField, .unlock]

/-- `ensureToken` up to the strategy decision on a cache miss (client.go
lines 47-59): the freshness reads, then the reads of the refresh token and
its expiry for `canRefresh` and `refreshTok`, then unlock. -/
def ensureTokenStrategyActs : List MutexAction :=
  [.lock, .readField .accessTokenField, .readField .expiresAtField,
   .readField .refreshTokenField, .readField .refreshExpiresAtField,
   .readField .refreshTokenField, .unlock]

/-- `ensureToken`, refresh attempted and successful (lines 62-69). -/
def ensureTokenRefreshOkTrace : List MutexAction :=
  ensureTokenStrategyActs ++ [.netCall, .lock] ++ storeTokenWrites ++ [.unlock]

/-- `ensureToken`, refresh attempted and failed, full auth successful
(lines 62-82). -/
def ensureTokenRefreshFailAuthOkTrace : List MutexAction :=
  ensureTokenStrategyActs ++ [.netCall, .netCall, .lock] ++ storeTokenWrites ++ [.unlock]

/-- `ensureToken`, refresh attempted and failed, full auth failed
(lines 62-77). -/
def ensureTokenRefreshFailAuthFailTrace : List MutexAction :=
  ensureTokenStrategyActs ++ [.netCall, .netCall]

/-- `ensureToken`, no usable refresh token, full auth successful
(lines 74-82). -/
def ensureTokenAuthOkTrace : List MutexAction :=
  ensureTokenStrategyActs ++ [.netCall, .lock] ++ storeTokenWrites ++ [.unlock]

/-- `ensureToken`, no usable refresh token, full auth failed (lines 74-77). -/
def ensureTokenAuthFailTrace : List MutexAction :=
  ensureTokenStrategyActs ++ [.netCall]

/-- The `ensureToken` paths that return success. -/
def ensureTokenSuccessTraces : List (List MutexAction) :=
  [ensureTokenHitTrace, ensureTokenRefreshOkTrace,
   ensureTokenRefreshFailAuthOkTrace, ensureTokenAuthOkTrace]

/-- The `ensureToken` paths that return an error. -/
def ensureTokenFailureTraces : List (List MutexAction) :=
  [ensureTokenRefreshFailAuthFailTrace, ensureTokenAuthFailTrace]

/-- All `ensureToken` paths. -/
def ensureTokenTraces : List (List MutexAction) :=
  ensureTokenSuccessTraces ++ ensureTokenFailureTraces

/-- All `doRequest` paths (client.go lines 129-183): after a successful
`ensureToken`, the Authorization header is set from `c.accessToken` with no
lock held (line 146), then the domain exchange runs; a failed `ensureToken`
returns early. -/
def doRequestTraces : List (List MutexAction) :=
  ensureTokenSuccessTraces.map (fun p => p ++ [.readField .accessTokenField, .netCall])
    ++ ensureTokenFailureTraces

/-- The `doRequest` path through a cache hit: the Authorization-header read
of `c.accessToken` at client.go line 146 happens after `ensureToken` has
released the lock. -/
def doRequestBearerHeaderTrace : List MutexAction :=
  ensureTokenHitTrace ++ [.readField .accessTokenField, .netCall]

/-- The `GetToken` paths (token file lines 7-18). -/
def getTokenTraces : List (List MutexAction) :=
  [[.netCall, .lock] ++ storeTokenWrites ++ [.unlock], [.netCall]]

/-- The `RefreshToken` paths (token file lines 22-37): lock-protected read
of the refresh token, the network call, then a lock-protected store. -/
def refreshTokenMethodTraces : List (List MutexAction) :=
  [[.lock, .readField .refreshTokenField, .unlock, .netCall, .lock]
      ++ storeTokenWrites ++ [.unlock],
   [.lock, .readField .refreshTokenField, .unlock, .netCall]]

/-! ### Concrete fixtures used by the witnesses -/

/-- A concrete configuration. -/
def cfg0 : Config :=
  { baseURL := "https://merchant.qpay.test", username := "user", password := "pass",
    invoiceCode := "INV", callbackURL := "https://cb.test" }

/-- A concrete decoded token response. -/
def tok0 : TokenResponse :=
  { tokenType := "Bearer", refreshExpiresIn := 9000, refreshToken := "refresh-new",
    accessToken := "access-new", expiresIn := 5000, scope := "", sessionState := "" }

/-- A state whose access token fails the freshness check at clock 100 but
whose refresh token passes its check. -/
def staleState : ClientState :=
  { accessToken := "access-old", refreshToken := "refresh-old",
    expiresAt := 40, refreshExpiresAt := 9000 }

/-- A state whose access token passes the freshness check at clock 100. -/
def freshState : ClientState :=
  { accessToken := "access-ok", refreshToken := "refresh-ok",
    expiresAt := 1000, refreshExpiresAt := 2000 }

/-- The initial state of a new client: all four fields zero. -/
def emptyState : ClientState :=
  { accessToken := "", refreshToken := "", expiresAt := 0, refreshExpiresAt := 0 }

/-- An environment in which every HTTP exchange fails at the transport level. -/
def envDead : Env :=
  { httpDo := fun _ => .transportError (.other "connection refused"),
    unmarshalError := fun _ => .invalid,
    unmarshalToken := fun _ => .error (.other "unexpected end of JSON input"),
    unmarshalResult := fun _ => none }

/-- An environment in which the refresh endpoint succeeds and the
basic-auth token endpoint is down. -/
def envRefreshOk : Env :=
  { httpDo := fun q => if q.basicAuth.isSome then .response 500 "auth down"
                       else .response 200 "token-json",
    unmarshalError := fun _ => .invalid,
    unmarshalToken := fun _ => .ok tok0,
    unmarshalResult := fun _ => none }

/-- An environment in which the refresh endpoint answers 401 and the
basic-auth token endpoint succeeds. -/
def envRefreshFailAuthOk : Env :=
  { httpDo := fun q => if q.basicAuth.isSome then .response 200 "token-json"
                       else .response 401 "refresh denied",
    unmarshalError := fun _ => .invalid,
    unmarshalToken := fun _ => .ok tok0,
    unmarshalResult := fun _ => none }

/-- An environment in which every endpoint answers 503 with a plain-text
body that is not valid JSON. -/
def envAllFail : Env :=
  { httpDo := fun _ => .response 503 "down",
    unmarshalError := fun _ => .invalid,
    unmarshalToken := fun _ => .error (.other "invalid json"),
    unmarshalResult := fun _ => none }

/-- The classified error the full-auth path produces in `envAllFail`:
the 503 response with non-JSON body `"down"`, Code and Message defaulted. -/
def err503auth : GoError :=
  .qpay { statusCode := 503, code := "Service Unavailable",
          message := "down", rawBody := "down" }

/-- The classified error the refresh path produces in `envAllFail`: the
same 503 response, but with Code and Message left empty (no defaulting). -/
def err503refresh : GoError :=
  .qpay { statusCode := 503, code := "", message := "", rawBody := "down" }

/-- A concrete `os.Getenv` with all five variables set. -/
def getenvFull : String → String := fun name =>
  if name == "QPAY_BASE_URL" then "https://merchant.qpay.test"
  else if name == "QPAY_USERNAME" then "user"
  else if name == "QPAY_PASSWORD" then "pass"
  else if name == "QPAY_INVOICE_CODE" then "INV"
  else if name == "QPAY_CALLBACK_URL" then "https://cb.test"
  else ""

/-- A concrete `os.Getenv` with `QPAY_PASSWORD` unset. -/
def getenvNoPass : String → String := fun name =>
  if name == "QPAY_PASSWORD" then "" else getenvFull name

/-! ### Claim theorems -/

/-- C2: when the stored access token is non-empty and the clock is strictly
below `expiresAt - 30`, `ensureToken` returns success immediately with zero
network calls and an unchanged state; consequently any sequence of calls
whose clocks all lie inside the validity window performs zero network calls
in total. -/
theorem ensureToken_cache_hit (env : Env) (cfg : Config) (now : Int) (s : ClientState)
    (h1 : s.accessToken ≠ "") (h2 : now < s.expiresAt - tokenBufferSeconds) :
    ensureToken env cfg now s = { err := none, state := s, calls := [] }
    ∧ ∀ times : List Int, (∀ t ∈ times, t < s.expiresAt - tokenBufferSeconds) →
        ensureTokenSeq env cfg times s = (s, []) := by
  have hsingle : ∀ t : Int, t < s.expiresAt - tokenBufferSeconds →
      ensureToken env cfg t s = { err := none, state := s, calls := [] } := by
    intro t ht
    have hf : accessTokenFresh s t = true := by
      simp [accessTokenFresh, h1, ht]
    simp [ensureToken, hf]
  refine ⟨hsingle now h2, ?_⟩
  intro times
  induction times with
  | nil => intro _; rfl
  | cons t ts ih =>
    intro hall
    have h1c := hsingle t (hall t (by simp))
    have h2c := ih (fun u hu => hall u (by simp [hu]))
    simp [ensureTokenSeq, h1c, h2c]

/-- C2 witness: a concrete fresh state in a dead network environment; one
call and a three-call sequence both return success without any HTTP request. -/
theorem ensureToken_cache_hit_witness :
    freshState.accessToken ≠ "" ∧ (100 : Int) < freshState.expiresAt - tokenBufferSeconds
    ∧ ensureToken envDead cfg0 100 freshState = { err := none, state := freshState, calls := [] }
    ∧ ensureTokenSeq envDead cfg0 [100, 200, 900] freshState = (freshState, []) := by
  have h := ensureToken_cache_hit envDead cfg0 100 freshState (by decide) (by decide)
  exact ⟨by decide, by decide, h.1, h.2 [100, 200, 900] (by decide)⟩

/-- C3: when the access token is stale but the refresh check passes and the
refresh call succeeds, `ensureToken` issues exactly the one refresh request
(a POST to `/v2/auth/refresh` carrying `Authorization: Bearer <refreshToken>`),
zero full-auth (basic-auth) requests, replaces the whole token state with the
new pair, and returns success. -/
theorem ensureToken_refresh_preferred (env : Env) (cfg : Config) (now : Int)
    (s : ClientState) (token : TokenResponse)
    (h1 : accessTokenFresh s now = false)
    (h2 : canRefreshCheck s now = true)
    (h3 : doRefreshTokenHTTP env cfg s.refreshToken = .ok token) :
    ensureToken env cfg now s =
      { err := none, state := storeToken token,
        calls := [refreshRequest cfg s.refreshToken] }
    ∧ ((ensureToken env cfg now s).calls.countP (fun q => q.basicAuth.isSome)) = 0
    ∧ (refreshRequest cfg s.refreshToken).method = "POST"
    ∧ (refreshRequest cfg s.refreshToken).url = cfg.baseURL ++ "/v2/auth/refresh"
    ∧ (refreshRequest cfg s.refreshToken).headers
        = [("Authorization", "Bearer " ++ s.refreshToken)] := by
  have he : ensureToken env cfg now s =
      { err := none, state := storeToken token,
        calls := [refreshRequest cfg s.refreshToken] } := by
    simp [ensureToken, h1, h2, h3]
  refine ⟨he, ?_, rfl, rfl, rfl⟩
  rw [he]
  simp [refreshRequest]

/-- C3 witness: at a concrete stale state with a working refresh endpoint,
`ensureToken` performs the single refresh call and installs the new pair. -/
theorem ensureToken_refresh_preferred_witness :
    accessTokenFresh staleState 100 = false ∧ canRefreshCheck staleState 100 = true
    ∧ doRefreshTokenHTTP envRefreshOk cfg0 staleState.refreshToken = .ok tok0
    ∧ ensureToken envRefreshOk cfg0 100 staleState =
        { err := none, state := storeToken tok0,
          calls := [refreshRequest cfg0 staleState.refreshToken] } :=
  ⟨by rfl, by rfl, by rfl,
   (ensureToken_refresh_preferred envRefreshOk cfg0 100 staleState tok0
      (by rfl) (by rfl) (by rfl)).1⟩

/-- C1: when the access token is stale, a refresh is attempted and the
refresh call fails with any error, the refresh error is swallowed:
`ensureToken` performs exactly one full-authentication request afterwards,
succeeds (storing the new pair) when that request succeeds, and returns an
error (the wrapped full-auth error, not the refresh error) only when the
full-authentication call itself fails. -/
theorem ensureToken_refresh_fallback (env : Env) (cfg : Config) (now : Int)
    (s : ClientState) (re : GoError)
    (h1 : accessTokenFresh s now = false)
    (h2 : canRefreshCheck s now = true)
    (h3 : doRefreshTokenHTTP env cfg s.refreshToken = .error re) :
    ((ensureToken env cfg now s).calls
        = [refreshRequest cfg s.refreshToken, authTokenRequest cfg])
    ∧ ((ensureToken env cfg now s).calls.countP (fun q => q.basicAuth.isSome)) = 1
    ∧ (∀ token, getTokenRequest env cfg = .ok token →
        ensureToken env cfg now s =
          { err := none, state := storeToken token,
            calls := [refreshRequest cfg s.refreshToken, authTokenRequest cfg] })
    ∧ (∀ e, getTokenRequest env cfg = .error e →
        ensureToken env cfg now s =
          { err := some (.wrapped "failed to get token" e), state := s,
            calls := [refreshRequest cfg s.refreshToken, authTokenRequest cfg] }) := by
  refine ⟨?_, ?_, ?_, ?_⟩
  · cases hg : getTokenRequest env cfg <;> simp [ensureToken, h1, h2, h3, hg]
  · cases hg : getTokenRequest env cfg <;>
      simp [ensureToken, h1, h2, h3, hg, refreshRequest, authTokenRequest, basicAuthRequest]
  · intro token heq; simp [ensureToken, h1, h2, h3, heq]
  · intro e heq; simp [ensureToken, h1, h2, h3, heq]

/-- C1 witness: a concrete stale state where the refresh endpoint answers
401; `ensureToken` swallows the refresh error, performs the full-auth call
and succeeds. -/
theorem ensureToken_refresh_fallback_witness :
    doRefreshTokenHTTP envRefreshFailAuthOk cfg0 staleState.refreshToken
      = .error (.qpay { statusCode := 401, code := "", message := "", rawBody := "refresh denied" })
    ∧ getTokenRequest envRefreshFailAuthOk cfg0 = .ok tok0
    ∧ ensureToken envRefreshFailAuthOk cfg0 100 staleState =
        { err := none, state := storeToken tok0,
          calls := [refreshRequest cfg0 staleState.refreshToken, authTokenRequest cfg0] } :=
  ⟨by rfl, by rfl,
   (ensureToken_refresh_fallback envRefreshFailAuthOk cfg0 100 staleState
      (.qpay { statusCode := 401, code := "", message := "", rawBody := "refresh denied" })
      (by rfl) (by rfl) (by rfl)).2.2.1 tok0 (by rfl)⟩

/-- C7: `expires_in` and `refresh_expires_in` are stored unmodified as the
absolute expiry instants (no addition of the acquisition time), and every
freshness check compares the clock directly against the stored value minus
the 30-second margin. -/
theorem storeToken_absolute_expiry :
    (∀ token : TokenResponse, storeToken token =
      { accessToken := token.accessToken, refreshToken := token.refreshToken,
        expiresAt := token.expiresIn, refreshExpiresAt := token.refreshExpiresIn })
    ∧ (∀ token : TokenResponse, ∀ now : Int,
        accessTokenFresh (storeToken token) now
          = (token.accessToken != "" && decide (now < token.expiresIn - 30)))
    ∧ (∀ token : TokenResponse, ∀ now : Int,
        canRefreshCheck (storeToken token) now
          = (token.refreshToken != "" && decide (now < token.refreshExpiresIn - 30)))
    ∧ tokenBufferSeconds = 30 :=
  ⟨fun _ => rfl, fun _ _ => rfl, fun _ _ => rfl, rfl⟩

/-- C10: `IsQPayError` answers via a direct type assertion: a non-nil
`*Error` yields `(the error, true)`; nil, any other error type, and any
error that merely wraps a `*Error` yield `(nil, false)` — no unwrapping. -/
theorem isQPayError_direct_assertion :
    IsQPayError none = (none, false)
    ∧ (∀ e : Error, IsQPayError (some (GoError.qpay e)) = (some e, true))
    ∧ (∀ msg : String, IsQPayError (some (GoError.other msg)) = (none, false))
    ∧ (∀ text : String, ∀ inner : GoError,
        IsQPayError (some (GoError.wrapped text inner)) = (none, false)) :=
  ⟨rfl, fun _ => rfl, fun _ => rfl, fun _ _ => rfl⟩

/-- C4: the token state is only ever written from a fully decoded successful
token response: when the full-authentication step is reached and fails,
`ensureToken` returns the wrapped error with the four stored fields intact;
`GetToken` and `RefreshToken` likewise propagate their network failure with
the state untouched; and in all executions the state after `ensureToken` is
either the old state or `storeToken` of a successfully decoded response. -/
theorem token_state_non_corruption (env : Env) (cfg : Config) (now : Int) (s : ClientState) :
    (∀ e, getTokenRequest env cfg = .error e →
        accessTokenFresh s now = false →
        (canRefreshCheck s now = false
          ∨ ∃ re, doRefreshTokenHTTP env cfg s.refreshToken = .error re) →
        (ensureToken env cfg now s).state = s
        ∧ (ensureToken env cfg now s).err = some (.wrapped "failed to get token" e))
    ∧ (∀ e, getTokenRequest env cfg = .error e → GetToken env cfg s = (.error e, s))
    ∧ (∀ e, doRefreshTokenHTTP env cfg s.refreshToken = .error e →
        RefreshToken env cfg s = (.error e, s))
    ∧ ((ensureToken env cfg now s).state = s
        ∨ ∃ token, (ensureToken env cfg now s).state = storeToken token
            ∧ (doRefreshTokenHTTP env cfg s.refreshToken = .ok token
               ∨ getTokenRequest env cfg = .ok token)) := by
  refine ⟨?_, ?_, ?_, ?_⟩
  · intro e hg h1 h2
    rcases h2 with h2 | ⟨re, h2⟩
    · simp [ensureToken, h1, h2, hg]
    · cases hc : canRefreshCheck s now <;> simp [ensureToken, h1, hc, h2, hg]
  · intro e hg; simp [GetToken, hg]
  · intro e hr; simp [RefreshToken, hr]
  · by_cases h1 : accessTokenFresh s now = true
    · left; simp [ensureToken, h1]
    · have h1f : accessTokenFresh s now = false := by
        simpa using h1
      cases hc : canRefreshCheck s now with
      | false =>
        cases hg : getTokenRequest env cfg with
        | ok token => exact Or.inr ⟨token, by simp [ensureToken, h1f, hc, hg], Or.inr rfl⟩
        | error e => exact Or.inl (by simp [ensureToken, h1f, hc, hg])
      | true =>
        cases hr : doRefreshTokenHTTP env cfg s.refreshToken with
        | ok token => exact Or.inr ⟨token, by simp [ensureToken, h1f, hc, hr], Or.inl rfl⟩
        | error re =>
          cases hg : getTokenRequest env cfg with
          | ok token =>
            exact Or.inr ⟨token, by simp [ensureToken, h1f, hc, hr, hg], Or.inr rfl⟩
          | error e => exact Or.inl (by simp [ensureToken, h1f, hc, hr, hg])

/-- C4 witness: with every endpoint answering 503, the full-auth request
fails and `ensureToken`, `GetToken` and `RefreshToken` all leave the
concrete prior state untouched. -/
theorem token_state_non_corruption_witness :
    getTokenRequest envAllFail cfg0 = .error err503auth
    ∧ GetToken envAllFail cfg0 staleState = (.error err503auth, staleState)
    ∧ RefreshToken envAllFail cfg0 staleState = (.error err503refresh, staleState)
    ∧ (ensureToken envAllFail cfg0 100 staleState).state = staleState := by
  have h := token_state_non_corruption envAllFail cfg0 100 staleState
  exact ⟨by rfl, h.2.1 err503auth (by rfl), h.2.2.1 err503refresh (by rfl),
    (h.1 err503auth (by rfl) (by rfl) (Or.inr ⟨err503refresh, by rfl⟩)).1⟩

/-- C5 counterexample: the claim that every non-swallowed failure reaches
the caller unchanged and is recoverable via `IsQPayError` is false at a
concrete input: when full authentication answers 503 for a client with no
stored tokens, the error a domain operation returns is the classified error
wrapped by `fmt.Errorf("failed to get token: %w", ...)`, on which
`IsQPayError` yields `(nil, false)`. -/
theorem error_propagation_counterexample :
    (doRequest envAllFail cfg0 100 emptyState "POST" "/v2/invoice" none).1
      = some (GoError.wrapped "failed to get token" err503auth)
    ∧ IsQPayError (some (GoError.wrapped "failed to get token" err503auth)) = (none, false) :=
  ⟨by rfl, rfl⟩

/-- C5 amended: every non-swallowed failure still surfaces as an error to
the caller, but not unchanged in general: a full-auth failure is wrapped as
`failed to get token: ...` and a transport failure of a domain operation as
`request failed: ...`, and `IsQPayError` returns `(nil, false)` on both
wrapped forms; only the classified error built from a non-2xx domain
response is returned unchanged, and on it `IsQPayError` recovers exactly
the value the failing layer produced. -/
theorem error_propagation_amended (env : Env) (cfg : Config) (now : Int) (s : ClientState)
    (method path : String) (body : Option String) :
    (∀ e, (ensureToken env cfg now s).err = some e →
        (doRequest env cfg now s method path body).1 = some e)
    ∧ (∀ e, getTokenRequest env cfg = .error e → accessTokenFresh s now = false →
        canRefreshCheck s now = false →
        (ensureToken env cfg now s).err = some (.wrapped "failed to get token" e)
        ∧ IsQPayError (some (GoError.wrapped "failed to get token" e)) = (none, false))
    ∧ (∀ e, (ensureToken env cfg now s).err = none →
        env.httpDo (bearerRequest cfg method path body
            (ensureToken env cfg now s).state.accessToken) = .transportError e →
        (doRequest env cfg now s method path body).1 = some (.wrapped "request failed" e)
        ∧ IsQPayError (some (GoError.wrapped "request failed" e)) = (none, false))
    ∧ (∀ status respBody, (ensureToken env cfg now s).err = none →
        env.httpDo (bearerRequest cfg method path body
            (ensureToken env cfg now s).state.accessToken) = .response status respBody →
        (status < 200 ∨ 300 ≤ status) →
        (doRequest env cfg now s method path body).1
            = some (.qpay (classifyDefaulted env status respBody))
        ∧ IsQPayError (some (GoError.qpay (classifyDefaulted env status respBody)))
            = (some (classifyDefaulted env status respBody), true)) := by
  refine ⟨?_, ?_, ?_, ?_⟩
  · intro e he
    simp [doRequest, he]
  · intro e hg h1 hc
    exact ⟨by simp [ensureToken, h1, hc, hg], rfl⟩
  · intro e hok htr
    exact ⟨by simp [doRequest, hok, htr], rfl⟩
  · intro status respBody hok hresp hbad
    exact ⟨by simp [doRequest, hok, hresp, hbad], rfl⟩

/-- C5 amended witness: at the concrete all-failing environment the wrapped
full-auth error is produced and `IsQPayError` rejects it. -/
theorem error_propagation_amended_witness :
    (ensureToken envAllFail cfg0 100 emptyState).err
        = some (GoError.wrapped "failed to get token" err503auth)
    ∧ IsQPayError (some (GoError.wrapped "failed to get token" err503auth)) = (none, false) :=
  (error_propagation_amended envAllFail cfg0 100 emptyState "POST" "/v2/invoice" none).2.1
    err503auth (by rfl) (by rfl) (by rfl)

/-- C6 counterexample: the defaulting of `Code`/`Message` does NOT hold on
the token-refresh path: a 503 response whose body `"down"` is not valid
JSON yields a classified error with empty Code and Message there, while the
textual status reason is `"Service Unavailable"` and the raw body is
`"down"`. -/
theorem error_default_counterexample :
    doRefreshTokenHTTP envAllFail cfg0 "refresh-old" = .error err503refresh
    ∧ statusText 503 = "Service Unavailable"
    ∧ err503refresh = .qpay { statusCode := 503, code := "", message := "",
                              rawBody := "down" }
    ∧ ("" : String) ≠ "Service Unavailable"
    ∧ ("" : String) ≠ "down" :=
  ⟨by rfl, rfl, rfl, by decide, by decide⟩

/-- C6 amended: for every non-2xx response whose body fails to decode as
JSON or carries neither `error` nor `message`, the bearer-auth path
(`doRequest`) and the basic-auth path (`doBasicAuthRequest`) produce a
classified error whose Code is the textual HTTP status reason, whose
Message is the raw body verbatim, and whose RawBody holds the body; the
token-refresh path (`doRefreshTokenHTTP`) stores the raw body but leaves
Code and Message empty — the defaulting is absent there. -/
theorem error_default_amended (env : Env) (cfg : Config) (method path : String)
    (status : Nat) (respBody : String)
    (hbad : status < 200 ∨ 300 ≤ status)
    (hdec : env.unmarshalError respBody = .invalid
            ∨ env.unmarshalError respBody = .fields none none) :
    classifyDefaulted env status respBody =
      { statusCode := status, code := statusText status,
        message := respBody, rawBody := respBody }
    ∧ (env.httpDo (basicAuthRequest cfg method path) = .response status respBody →
        doBasicAuthRequest env cfg method path =
          .error (.qpay { statusCode := status, code := statusText status,
                          message := respBody, rawBody := respBody }))
    ∧ (∀ now s body, (ensureToken env cfg now s).err = none →
        env.httpDo (bearerRequest cfg method path body
            (ensureToken env cfg now s).state.accessToken) = .response status respBody →
        (doRequest env cfg now s method path body).1 =
          some (.qpay { statusCode := status, code := statusText status,
                        message := respBody, rawBody := respBody }))
    ∧ (∀ refreshTok, env.httpDo (refreshRequest cfg refreshTok) = .response status respBody →
        doRefreshTokenHTTP env cfg refreshTok =
          .error (.qpay { statusCode := status, code := "", message := "",
                          rawBody := respBody })) := by
  have hclass : classifyDefaulted env status respBody =
      { statusCode := status, code := statusText status,
        message := respBody, rawBody := respBody } := by
    rcases hdec with hdec | hdec <;>
      simp [classifyDefaulted, applyUnmarshalError, hdec]
  refine ⟨hclass, ?_, ?_, ?_⟩
  · intro hresp
    simp [doBasicAuthRequest, hresp, hbad, hclass]
  · intro now s body hok hresp
    simp [doRequest, hok, hresp, hbad, hclass]
  · intro refreshTok hresp
    rcases hdec with hdec | hdec <;>
      simp [doRefreshTokenHTTP, hresp, hbad, applyUnmarshalError, hdec]

/-- C6 amended witness: the concrete 503 plain-text response is classified
with defaulted Code and Message on the basic-auth path. -/
theorem error_default_amended_witness :
    classifyDefaulted envAllFail 503 "down" =
      { statusCode := 503, code := "Service Unavailable",
        message := "down", rawBody := "down" }
    ∧ doBasicAuthRequest envAllFail cfg0 "POST" "/v2/auth/token" = .error err503auth := by
  have h := error_default_amended envAllFail cfg0 "POST" "/v2/auth/token" 503 "down"
    (Or.inr (by decide)) (Or.inl (by rfl))
  exact ⟨h.1, h.2.1 (by rfl)⟩

/-- `LoadConfigFromEnv` written as its top-level `match`. -/
theorem loadConfigFromEnv_eq (getenv : String → String) :
    LoadConfigFromEnv getenv =
      match (requiredPairs getenv).find? (fun p => p.2 == "") with
      | some p => .error ("required environment variable " ++ p.1 ++ " is not set")
      | none =>
        .ok { baseURL := getenv "QPAY_BASE_URL", username := getenv "QPAY_USERNAME",
              password := getenv "QPAY_PASSWORD", invoiceCode := getenv "QPAY_INVOICE_CODE",
              callbackURL := getenv "QPAY_CALLBACK_URL" } := rfl

/-- Every entry of the `required` table pairs one of the five names with
its environment value. -/
theorem mem_requiredPairs (getenv : String → String) (p : String × String)
    (hp : p ∈ requiredPairs getenv) :
    p.1 ∈ requiredEnvNames ∧ p.2 = getenv p.1 := by
  simp only [requiredPairs, List.mem_cons, List.not_mem_nil, or_false] at hp
  rcases hp with rfl | rfl | rfl | rfl | rfl <;> simp [requiredEnvNames]

/-- Each of the five names appears in the `required` table with its value. -/
theorem name_pair_mem (getenv : String → String) (name : String)
    (hn : name ∈ requiredEnvNames) :
    (name, getenv name) ∈ requiredPairs getenv := by
  simp only [requiredEnvNames, List.mem_cons, List.not_mem_nil, or_false] at hn
  rcases hn with rfl | rfl | rfl | rfl | rfl <;> simp [requiredPairs]

/-- C8: `LoadConfigFromEnv` succeeds exactly when all five variables are
non-empty; on success the five config fields equal the five environment
values; on failure the error message names one of the five variables whose
value is empty. -/
theorem loadConfigFromEnv_spec (getenv : String → String) :
    ((∃ cfg, LoadConfigFromEnv getenv = .ok cfg) ↔
        ∀ name ∈ requiredEnvNames, getenv name ≠ "")
    ∧ (∀ cfg, LoadConfigFromEnv getenv = .ok cfg →
        cfg = { baseURL := getenv "QPAY_BASE_URL", username := getenv "QPAY_USERNAME",
                password := getenv "QPAY_PASSWORD", invoiceCode := getenv "QPAY_INVOICE_CODE",
                callbackURL := getenv "QPAY_CALLBACK_URL" })
    ∧ (∀ msg, LoadConfigFromEnv getenv = .error msg →
        ∃ name, name ∈ requiredEnvNames ∧ getenv name = ""
          ∧ msg = "required environment variable " ++ name ++ " is not set") := by
  cases hf : (requiredPairs getenv).find? (fun p => p.2 == "") with
  | none =>
    have hall := List.find?_eq_none.mp hf
    refine ⟨?_, ?_, ?_⟩
    · constructor
      · intro _ name hn
        have := hall (name, getenv name) (name_pair_mem getenv name hn)
        simpa using this
      · intro _
        exact ⟨_, by rw [loadConfigFromEnv_eq, hf]⟩
    · intro cfg hok
      rw [loadConfigFromEnv_eq, hf] at hok
      injection hok with h
      exact h.symm
    · intro msg hmsg
      rw [loadConfigFromEnv_eq, hf] at hmsg
      exact absurd hmsg (by simp)
  | some p =>
    have hpmem := mem_requiredPairs getenv p (List.mem_of_find?_eq_some hf)
    have hp2 : p.2 = "" := by
      have h2 := List.find?_some hf
      simpa using h2
    have hempty : getenv p.1 = "" := by
      rw [← hpmem.2]
      exact hp2
    refine ⟨?_, ?_, ?_⟩
    · constructor
      · rintro ⟨cfg, hok⟩
        rw [loadConfigFromEnv_eq, hf] at hok
        exact absurd hok (by simp)
      · intro hall
        exact absurd hempty (hall p.1 hpmem.1)
    · intro cfg hok
      rw [loadConfigFromEnv_eq, hf] at hok
      exact absurd hok (by simp)
    · intro msg hmsg
      rw [loadConfigFromEnv_eq, hf] at hmsg
      injection hmsg with h
      exact ⟨p.1, hpmem.1, hempty, h.symm⟩

/-- C8 witness: with all five variables set the concrete config is
returned; with `QPAY_PASSWORD` empty the error names it. -/
theorem loadConfigFromEnv_witness :
    (cfg0 = { baseURL := getenvFull "QPAY_BASE_URL", username := getenvFull "QPAY_USERNAME",
              password := getenvFull "QPAY_PASSWORD",
              invoiceCode := getenvFull "QPAY_INVOICE_CODE",
              callbackURL := getenvFull "QPAY_CALLBACK_URL" })
    ∧ (∃ name, name ∈ requiredEnvNames ∧ getenvNoPass name = ""
        ∧ "required environment variable QPAY_PASSWORD is not set"
            = "required environment variable " ++ name ++ " is not set") :=
  ⟨(loadConfigFromEnv_spec getenvFull).2.1 cfg0 (by rfl),
   (loadConfigFromEnv_spec getenvNoPass).2.2
     "required environment variable QPAY_PASSWORD is not set" (by rfl)⟩

/-- C9 counterexample: the claim that every read of the four token fields
happens under the lock is false: the `doRequest` path through a cache hit
reads `accessToken` for the Authorization header (client.go line 146) with
the lock depth at zero. -/
theorem lock_discipline_counterexample :
    doRequestBearerHeaderTrace ∈ doRequestTraces
    ∧ unlockedAccesses 0 doRequestBearerHeaderTrace
        = [MutexAction.readField TokenField.accessTokenField] := by
  decide

/-- C9 amended: all token-field accesses of `ensureToken`, `GetToken` and
`RefreshToken` occur while holding the lock and every network call runs
with the lock released; `doRequest` also keeps its network calls outside
the lock, but each of its successful paths performs exactly one unlocked
access — the read of `accessToken` for the Authorization header — and at
least one such path exists. -/
theorem lock_discipline_amended :
    ((ensureTokenTraces ++ getTokenTraces ++ refreshTokenMethodTraces).all
        (fun p => (unlockedAccesses 0 p).isEmpty && (netCallsUnderLock 0 p == 0))) = true
    ∧ (doRequestTraces.all (fun p => netCallsUnderLock 0 p == 0)) = true
    ∧ (doRequestTraces.all (fun p =>
          (unlockedAccesses 0 p).isEmpty
          || (unlockedAccesses 0 p
                == [MutexAction.readField TokenField.accessTokenField]))) = true
    ∧ (doRequestTraces.any (fun p =>
          unlockedAccesses 0 p
            == [MutexAction.readField TokenField.accessTokenField])) = true := by
  decide

end QPay
